import Mathlib

/-!
Shallow embedding of the postMessage RPC engine in src/rpc.js.

The source has two halves:
* a client proxy (RPC._Client) holding a pending-call table `_waiting`
  (a JS Map from message id to the resolve/reject continuations of the
  promise returned by `_invoke`), and a receive handler that filters
  incoming messages and settles the matching pending call;
* a server dispatcher (RPC._Server) that checks the interfaceName and the
  whitelist `_rpcInterface`, optionally injects a caller-identity object,
  invokes the wrapped service method and replies with status OK or error.

Windows (message sources) are modelled as naturals, origins and statuses as
strings (JS truthiness of a status string is being nonempty), plain service
values as a small value universe `JValue`, and JS errors as records with
message, stack and code fields.  The JS Map is modelled as an association
list with unique keys: `mapSet` replaces in place, `mapDelete` removes the
entry of the key, `mapGet` finds it.
-/

/-- Window identity, as delivered in the `source` field of a message event. -/
abbrev Source := Nat

/-- Plain (non-error) values carried in requests and OK replies. -/
inductive JValue where
  | vnat (n : Nat)
  | vstr (s : String)
  | vbool (b : Bool)
  | vstrList (xs : List String)
  | vundef
deriving DecidableEq

/-- A JS error: message, stack and the (optional) code field that rpc.js
copies across the channel. -/
structure JSError where
  message : String
  stack : String
  code : Option String
deriving DecidableEq

/-- String conversion of a JS Error object (Error.prototype.toString):
the name "Error", then ": " and the message when the message is nonempty. -/
def jsErrorToString (e : JSError) : String :=
  if e.message = "" then "Error" else "Error: " ++ e.message

/-- The `result` field of a reply: a plain value on status OK, and on status
error either the structured payload built by the dispatcher from a truthy
message (message, stack, code fields) or, when the thrown value had no truthy
message, the raw thrown value itself wrapped as the message field. -/
inductive WireResult where
  | value (v : JValue)
  | errObj (message : String) (stack : String) (code : Option String)
  | errRaw (e : JSError)
deriving DecidableEq

/-- Pending entry of the `_waiting` table: the resolve and error
continuations of the promise created by `_invoke`, identified by tokens. -/
structure PendingEntry where
  resolveTok : Nat
  errorTok : Nat
deriving DecidableEq

/-- Map.get on the association list: first entry with the key. -/
def mapGet (w : List (Nat × PendingEntry)) (k : Nat) : Option PendingEntry :=
  match w with
  | [] => none
  | (k', v) :: t => if k' = k then some v else mapGet t k

/-- Map.delete on the association list: removes the entry with the key. -/
def mapDelete (w : List (Nat × PendingEntry)) (k : Nat) : List (Nat × PendingEntry) :=
  match w with
  | [] => []
  | (k', v) :: t => if k' = k then t else (k', v) :: mapDelete t k

/-- Map.set on the association list: replaces in place, else appends. -/
def mapSet (w : List (Nat × PendingEntry)) (k : Nat) (v : PendingEntry) :
    List (Nat × PendingEntry) :=
  match w with
  | [] => [(k, v)]
  | (k', v') :: t => if k' = k then (k, v) :: t else (k', v') :: mapSet t k v

/-- Data of a reply message as inspected by the client receive handler:
status, interfaceName, id and result fields. -/
structure ReplyData where
  status : String
  interfaceName : String
  id : Nat
  result : WireResult
deriving DecidableEq

/-- A delivered message event: source window, origin, data. -/
structure MessageEvent where
  source : Source
  origin : String
  data : ReplyData
deriving DecidableEq

/-- State of a client proxy: the constructor captures targetWindow,
targetOrigin and interfaceName, and initialises the `_waiting` Map. -/
structure ClientState where
  targetWindow : Source
  targetOrigin : String
  interfaceName : String
  waiting : List (Nat × PendingEntry)
deriving DecidableEq

/-- Observable effect of one run of the client receive handler. -/
inductive ClientAction where
  /-- Message discarded by the filter; nothing happens. -/
  | ignore
  /-- Filter passed but no pending entry has this id: console.log only. -/
  | logUnknownReply (id : Nat)
  /-- Resolve continuation of the entry invoked with the result. -/
  | invokeResolve (tok : Nat) (v : WireResult)
  /-- Error continuation of the entry invoked with the rebuilt error. -/
  | invokeError (tok : Nat) (e : JSError)
  /-- Entry deleted, but status was neither OK nor error: no continuation. -/
  | dropWithoutCallback (id : Nat)
deriving DecidableEq

/-- Client-side reconstruction of an error from the reply result:
destructure message, stack, code and build `new Error(message)` with code
and stack copied on.  Destructuring a result without those fields yields
undefined fields, modelled as the empty string and none; a raw error value
as message is stringified by the Error constructor. -/
def rebuildError : WireResult → JSError
  | WireResult.errObj m s c => { message := m, stack := s, code := c }
  | WireResult.errRaw e => { message := jsErrorToString e, stack := "", code := none }
  | WireResult.value _ => { message := "", stack := "", code := none }

/-- The receive handler of the client proxy (Client._receive in rpc.js).
Discards messages from other sources, without a truthy status, with another
interfaceName, or, when a non-wildcard targetOrigin is configured, from a
different origin.  Otherwise looks up the pending entry by id: logs an
unknown reply when absent; when present deletes it and, on status OK,
resolves with the result, on status error rejects with the rebuilt error,
and on any other truthy status does nothing further. -/
def Client.receive (st : ClientState) (ev : MessageEvent) : ClientState × ClientAction :=
  if ev.source ≠ st.targetWindow
      ∨ ev.data.status = ""
      ∨ ev.data.interfaceName ≠ st.interfaceName
      ∨ (st.targetOrigin ≠ "*" ∧ ev.origin ≠ st.targetOrigin) then
    (st, ClientAction.ignore)
  else
    match mapGet st.waiting ev.data.id with
    | none => (st, ClientAction.logUnknownReply ev.data.id)
    | some cb =>
      let st' : ClientState := { st with waiting := mapDelete st.waiting ev.data.id }
      if ev.data.status = "OK" then
        (st', ClientAction.invokeResolve cb.resolveTok ev.data.result)
      else if ev.data.status = "error" then
        (st', ClientAction.invokeError cb.errorTok (rebuildError ev.data.result))
      else
        (st', ClientAction.dropWithoutCallback ev.data.id)

/-- Data of a request message as produced by the client and inspected by the
server dispatcher: command, interfaceName, args and id. -/
structure RequestData where
  command : String
  interfaceName : String
  args : List JValue
  id : Nat
deriving DecidableEq

/-- Client._invoke: registers the fresh entry in the `_waiting` Map under a
fresh random id and posts the request (to the target window with wildcard
target origin).  Returns the new state and the posted request data. -/
def Client.invoke (st : ClientState) (command : String) (args : List JValue)
    (freshId : Nat) (entry : PendingEntry) : ClientState × RequestData :=
  ({ st with waiting := mapSet st.waiting freshId entry },
   { command := command, interfaceName := st.interfaceName, args := args, id := freshId })

/-- The filter of the client receive handler, stated positively: the message
comes from the target window, has a truthy status and the right
interfaceName, and its origin matches when a non-wildcard origin is pinned. -/
def ClientPasses (st : ClientState) (ev : MessageEvent) : Prop :=
  ev.source = st.targetWindow
    ∧ ev.data.status ≠ ""
    ∧ ev.data.interfaceName = st.interfaceName
    ∧ (st.targetOrigin = "*" ∨ ev.origin = st.targetOrigin)

instance (st : ClientState) (ev : MessageEvent) : Decidable (ClientPasses st ev) := by
  unfold ClientPasses
  infer_instance

/-- How the receive handler settles a found pending entry, as a function of
the reply: resolve on OK, reject on error, silent drop otherwise. -/
def settlementOf (ev : MessageEvent) (cb : PendingEntry) : ClientAction :=
  if ev.data.status = "OK" then
    ClientAction.invokeResolve cb.resolveTok ev.data.result
  else if ev.data.status = "error" then
    ClientAction.invokeError cb.errorTok (rebuildError ev.data.result)
  else
    ClientAction.dropWithoutCallback ev.data.id

/-- Runs the client receive handler on a sequence of arriving messages,
collecting the action of each. -/
def processReplies (st : ClientState) (evs : List MessageEvent) :
    ClientState × List ClientAction :=
  match evs with
  | [] => (st, [])
  | ev :: rest =>
    let p := Client.receive st ev
    let q := processReplies p.1 rest
    (q.1, p.2 :: q.2)

/-- An incoming message on the server side: source window, origin, request
data. -/
structure InMessage where
  source : Source
  origin : String
  data : RequestData
deriving DecidableEq

/-- A reply posted by the server dispatcher: postMessage target and origin,
then the posted data fields status, result, interfaceName, id. -/
structure OutMessage where
  target : Source
  targetOrigin : String
  status : String
  result : WireResult
  interfaceName : String
  id : Nat
deriving DecidableEq

/-- One argument of a dispatched service call: either a plain value from the
request args, or the injected access-control identity object carrying the
callingWindow and callingOrigin fields taken from the incoming message. -/
inductive CallArg where
  | value (v : JValue)
  | identity (callingWindow : Source) (callingOrigin : String)
deriving DecidableEq

/-- Result of invoking a service method: a synchronous non-promise value, a
promise that resolves or rejects, or a synchronous throw. -/
inductive InvokeOutcome where
  | value (v : JValue)
  | promiseOk (v : JValue)
  | promiseErr (e : JSError)
  | throws (e : JSError)
deriving DecidableEq

/-- A service behaviour: what invoking each command on the wrapped class
with the built argument list does.  This stands for the methods of the
wrapped service class, which are external to rpc.js. -/
abbrev Service := String → List CallArg → InvokeOutcome

/-- State of a server dispatcher: its own name (the interfaceName), the
resolved whitelist `_rpcInterface`, and the useAccessControl flag. -/
structure ServerState where
  name : String
  rpcInterface : List String
  useAccessControl : Bool

/-- Argument building in Server._receive: starting from the request args,
when useAccessControl is set and the command is not getRpcInterface, the
identity object with the calling window and origin is placed first. -/
def Server.buildArgs (useAccessControl : Bool) (src : Source) (origin : String)
    (command : String) (args : List JValue) : List CallArg :=
  if useAccessControl = true ∧ command ≠ "getRpcInterface" then
    CallArg.identity src origin :: args.map CallArg.value
  else
    args.map CallArg.value

/-- Server._replyTo: posts status, result, the own interfaceName and the
request id back to the source window of the message at its origin. -/
def Server.replyTo (name : String) (m : InMessage) (status : String)
    (result : WireResult) : OutMessage :=
  { target := m.source, targetOrigin := m.origin, status := status,
    result := result, interfaceName := name, id := m.data.id }

/-- Error payload construction used for both synchronous throws and promise
rejections: with a truthy message the structured payload of message, stack
and code; otherwise the thrown value itself as the message field. -/
def errorToPayload (e : JSError) : WireResult :=
  if e.message ≠ "" then WireResult.errObj e.message e.stack e.code
  else WireResult.errRaw e

/-- The error thrown for a command absent from the whitelist. -/
def unknownCommandError : JSError :=
  { message := "Unknown command", stack := "", code := none }

/-- Observable effect of one run of the server receive handler: the replies
posted, and which command was invoked on the service with which arguments,
when one was. -/
structure ServerOutput where
  replies : List OutMessage
  invoked : Option (String × List CallArg)
deriving DecidableEq

/-- The receive handler of the server dispatcher (Server._receive in
rpc.js).  Returns without any effect when the interfaceName differs from
the own name.  Replies with one Unknown command error when the command is
not in the whitelist, without invoking anything.  Otherwise builds the
arguments, invokes the service and replies status OK with the (awaited)
result, or status error with the payload built from the throw or
rejection. -/
def Server.receive (st : ServerState) (service : Service) (m : InMessage) : ServerOutput :=
  if m.data.interfaceName ≠ st.name then
    { replies := [], invoked := none }
  else if ¬ st.rpcInterface.contains m.data.command then
    { replies := [Server.replyTo st.name m "error" (errorToPayload unknownCommandError)],
      invoked := none }
  else
    let args := Server.buildArgs st.useAccessControl m.source m.origin
      m.data.command m.data.args
    match service m.data.command args with
    | InvokeOutcome.value v =>
      { replies := [Server.replyTo st.name m "OK" (WireResult.value v)],
        invoked := some (m.data.command, args) }
    | InvokeOutcome.promiseOk v =>
      { replies := [Server.replyTo st.name m "OK" (WireResult.value v)],
        invoked := some (m.data.command, args) }
    | InvokeOutcome.promiseErr e =>
      { replies := [Server.replyTo st.name m "error" (errorToPayload e)],
        invoked := some (m.data.command, args) }
    | InvokeOutcome.throws e =>
      { replies := [Server.replyTo st.name m "error" (errorToPayload e)],
        invoked := some (m.data.command, args) }

/-- Whitelist resolution at construction time of RPC._Server: the explicit
rpcInterface parameter when given, otherwise the introspected user function
names of the class; then getRpcInterface is pushed onto the list. -/
def resolveRpcInterface (explicit : Option (List String))
    (introspected : List String) : List String :=
  (match explicit with
   | some l => l
   | none => introspected) ++ ["getRpcInterface"]

/-- Modelled from the spec wording of whitelist resolution, for comparison:
use the explicit list verbatim, otherwise the introspected names, and
append the handshake method name only if it is not already present. -/
def resolveRpcInterfaceSpec (explicit : Option (List String))
    (introspected : List String) : List String :=
  let base := match explicit with
    | some l => l
    | none => introspected
  if base.contains "getRpcInterface" then base else base ++ ["getRpcInterface"]

/-- Transport of a posted reply back to the client: the receiving side sees
the posting window as source and its origin as origin, and the posted
fields as the data. -/
def deliverReply (serverWindow : Source) (serverOrigin : String)
    (o : OutMessage) : MessageEvent :=
  { source := serverWindow, origin := serverOrigin,
    data := { status := o.status, interfaceName := o.interfaceName,
              id := o.id, result := o.result } }

/-- One full round trip: the client invokes a stub (Client._invoke), the
request is delivered to the dispatcher (Server._receive), and the single
reply, when there is one, is delivered back to the client receive handler
with the server window as its source. -/
def roundTrip (cst : ClientState) (sst : ServerState) (service : Service)
    (serverOrigin clientOrigin : String) (clientWindow : Source)
    (command : String) (args : List JValue) (freshId : Nat)
    (entry : PendingEntry) : ClientState × ClientAction :=
  let p := Client.invoke cst command args freshId entry
  let out := Server.receive sst service
    { source := clientWindow, origin := clientOrigin, data := p.2 }
  match out.replies with
  | [o] => Client.receive p.1 (deliverReply cst.targetWindow serverOrigin o)
  | _ => (p.1, ClientAction.ignore)

/-- Events of the connect handshake driver in RPC.Client. -/
inductive CEvent where
  | sendHandshake (t : Nat)
  | rejectConnect (t : Nat) (msg : String)
deriving DecidableEq

/-- Timer simulation of RPC.Client when no matching reply ever arrives, so
connected stays false throughout.  The state is the pending tryToConnect
timer and the pending timeout timer, each an optional firing time.  When
the tryToConnect timer fires first it posts the handshake message and
reschedules itself 1000 ms later; when the timeout timer fires it rejects
the promise with the Connection timeout error and clears the tryToConnect
timer, after which nothing is scheduled and nothing further happens. -/
def connectNoReplySteps : Nat → Option Nat → Option Nat → List CEvent
  | 0, _, _ => []
  | fuel + 1, some ct, some tt =>
    if ct ≤ tt then
      CEvent.sendHandshake ct :: connectNoReplySteps fuel (some (ct + 1000)) (some tt)
    else
      [CEvent.rejectConnect tt "Connection timeout"]
  | fuel + 1, some ct, none =>
    CEvent.sendHandshake ct :: connectNoReplySteps fuel (some (ct + 1000)) none
  | _ + 1, none, some tt => [CEvent.rejectConnect tt "Connection timeout"]
  | _ + 1, none, none => []

/-- The no-reply run of RPC.Client: the timeout timer is set to 30000 ms and
the first tryToConnect to 100 ms at construction. -/
def connectNoReplyRun : List CEvent :=
  connectNoReplySteps 64 (some 100) (some 30000)

/-- Registry of message event listeners of the page, with a counter for
fresh function objects: every evaluation of bind creates a new one. -/
structure ListenerRegistry where
  listeners : List Nat
  nextFresh : Nat
deriving DecidableEq

/-- Function.prototype.bind: a fresh function object. -/
def bindReceive (r : ListenerRegistry) : Nat × ListenerRegistry :=
  (r.nextFresh, { r with nextFresh := r.nextFresh + 1 })

/-- addEventListener registers the handler. -/
def addEventListener (r : ListenerRegistry) (f : Nat) : ListenerRegistry :=
  { r with listeners := r.listeners ++ [f] }

/-- removeEventListener removes the given handler when registered, and does
nothing when the given function is not in the registry. -/
def removeEventListener (r : ListenerRegistry) (f : Nat) : ListenerRegistry :=
  { r with listeners := r.listeners.erase f }

/-- The server constructor registers a freshly bound copy of _receive:
addEventListener(this._receive.bind(this)). -/
def serverConstructListeners (r : ListenerRegistry) : Nat × ListenerRegistry :=
  let p := bindReceive r
  (p.1, addEventListener p.2 p.1)

/-- Server close: removeEventListener(this._receive.bind(this)) binds a
second, different function object and passes that one. -/
def serverCloseListeners (r : ListenerRegistry) : ListenerRegistry :=
  let p := bindReceive r
  removeEventListener p.2 p.1

/-- Well-formed registry: every registered handler was created by an earlier
bind, so it is below the fresh counter. -/
def RegistryWF (r : ListenerRegistry) : Prop :=
  ∀ f ∈ r.listeners, f < r.nextFresh

instance (r : ListenerRegistry) : Decidable (RegistryWF r) := by
  unfold RegistryWF
  exact List.decidableBAll _ _

/-- Dispatch of one incoming message to every registered server receive
handler: each registered copy runs Server._receive once. -/
def serverDispatch (r : ListenerRegistry) (st : ServerState) (service : Service)
    (m : InMessage) : List ServerOutput :=
  r.listeners.map (fun _ => Server.receive st service m)

/-! Helper lemmas about the Map model and the receive handlers. -/

theorem mapGet_eq_none_of_not_mem (w : List (Nat × PendingEntry)) (k : Nat)
    (h : k ∉ w.map Prod.fst) : mapGet w k = none := by
  induction w with
  | nil => rfl
  | cons p t ih =>
    obtain ⟨k', v⟩ := p
    simp only [List.map_cons, List.mem_cons, not_or] at h
    rw [mapGet, if_neg (fun he => h.1 he.symm)]
    exact ih h.2

theorem mapGet_mapDelete_of_ne (w : List (Nat × PendingEntry)) (i j : Nat)
    (h : j ≠ i) : mapGet (mapDelete w i) j = mapGet w j := by
  induction w with
  | nil => rfl
  | cons p t ih =>
    obtain ⟨k, v⟩ := p
    by_cases hk : k = i
    · subst hk
      rw [mapDelete, if_pos rfl, mapGet, if_neg (fun he => h (he.symm))]
    · rw [mapDelete, if_neg hk]
      by_cases hj : k = j
      · rw [mapGet, if_pos hj, mapGet, if_pos hj]
      · rw [mapGet, if_neg hj, mapGet, if_neg hj, ih]

theorem keys_mapDelete_sublist (w : List (Nat × PendingEntry)) (i : Nat) :
    ((mapDelete w i).map Prod.fst).Sublist (w.map Prod.fst) := by
  induction w with
  | nil => exact List.Sublist.refl _
  | cons p t ih =>
    obtain ⟨k, v⟩ := p
    by_cases hk : k = i
    · rw [mapDelete, if_pos hk, List.map_cons]
      exact List.sublist_cons_self _ _
    · rw [mapDelete, if_neg hk, List.map_cons, List.map_cons]
      exact List.Sublist.cons₂ _ ih

theorem keysNodup_mapDelete (w : List (Nat × PendingEntry)) (i : Nat)
    (h : (w.map Prod.fst).Nodup) : ((mapDelete w i).map Prod.fst).Nodup :=
  (keys_mapDelete_sublist w i).nodup h

theorem mapGet_mapDelete_self (w : List (Nat × PendingEntry)) (k : Nat)
    (h : (w.map Prod.fst).Nodup) : mapGet (mapDelete w k) k = none := by
  induction w with
  | nil => rfl
  | cons p t ih =>
    obtain ⟨k', v⟩ := p
    simp only [List.map_cons, List.nodup_cons] at h
    by_cases hk : k' = k
    · subst hk
      rw [mapDelete, if_pos rfl]
      exact mapGet_eq_none_of_not_mem t k' h.1
    · rw [mapDelete, if_neg hk, mapGet, if_neg hk]
      exact ih h.2

theorem mapDelete_eq_filter (w : List (Nat × PendingEntry)) (i : Nat)
    (h : (w.map Prod.fst).Nodup) :
    mapDelete w i = w.filter (fun p => p.1 != i) := by
  induction w with
  | nil => rfl
  | cons p t ih =>
    obtain ⟨k, v⟩ := p
    simp only [List.map_cons, List.nodup_cons] at h
    by_cases hk : k = i
    · subst hk
      rw [mapDelete, if_pos rfl, List.filter_cons]
      rw [if_neg (by simp)]
      refine ((List.filter_eq_self.mpr ?_)).symm
      intro a ha
      have : a.1 ≠ k := by
        intro hcontra
        exact h.1 (hcontra ▸ List.mem_map_of_mem Prod.fst ha)
      simpa using this
    · rw [mapDelete, if_neg hk, List.filter_cons, if_pos (by simpa using hk)]
      rw [ih h.2]

theorem mapSet_of_get_none (w : List (Nat × PendingEntry)) (k : Nat) (v : PendingEntry)
    (h : mapGet w k = none) : mapSet w k v = w ++ [(k, v)] := by
  induction w with
  | nil => rfl
  | cons p t ih =>
    obtain ⟨k', v'⟩ := p
    rw [mapGet] at h
    by_cases hk : k' = k
    · rw [if_pos hk] at h
      exact absurd h (by simp)
    · rw [if_neg hk] at h
      rw [mapSet, if_neg hk, List.cons_append, ih h]

theorem mapGet_append_right (w : List (Nat × PendingEntry)) (k : Nat) (v : PendingEntry)
    (h : mapGet w k = none) : mapGet (w ++ [(k, v)]) k = some v := by
  induction w with
  | nil => simp [mapGet]
  | cons p t ih =>
    obtain ⟨k', v'⟩ := p
    rw [mapGet] at h
    by_cases hk : k' = k
    · rw [if_pos hk] at h
      exact absurd h (by simp)
    · rw [if_neg hk] at h
      rw [List.cons_append, mapGet, if_neg hk]
      exact ih h

theorem receive_of_passes (st : ClientState) (ev : MessageEvent)
    (h : ClientPasses st ev) :
    Client.receive st ev =
      match mapGet st.waiting ev.data.id with
      | none => (st, ClientAction.logUnknownReply ev.data.id)
      | some cb =>
        ({ st with waiting := mapDelete st.waiting ev.data.id }, settlementOf ev cb) := by
  obtain ⟨h1, h2, h3, h4⟩ := h
  have hc : ¬ (ev.source ≠ st.targetWindow
      ∨ ev.data.status = ""
      ∨ ev.data.interfaceName ≠ st.interfaceName
      ∨ (st.targetOrigin ≠ "*" ∧ ev.origin ≠ st.targetOrigin)) := by
    push_neg
    refine ⟨h1, h2, h3, fun hne => ?_⟩
    rcases h4 with h4 | h4
    · exact absurd h4 hne
    · exact h4
  rw [Client.receive, if_neg hc]
  cases hm : mapGet st.waiting ev.data.id with
  | none => rfl
  | some cb =>
    dsimp only
    rw [settlementOf]
    split_ifs <;> rfl

/-- Status of the one reply produced for a dispatched call: OK for a plain
value or a resolved promise, error for a throw or a rejected promise. -/
def replyStatusOf : InvokeOutcome → String
  | InvokeOutcome.value _ => "OK"
  | InvokeOutcome.promiseOk _ => "OK"
  | InvokeOutcome.promiseErr _ => "error"
  | InvokeOutcome.throws _ => "error"

/-- Result of the one reply produced for a dispatched call. -/
def replyResultOf : InvokeOutcome → WireResult
  | InvokeOutcome.value v => WireResult.value v
  | InvokeOutcome.promiseOk v => WireResult.value v
  | InvokeOutcome.promiseErr e => errorToPayload e
  | InvokeOutcome.throws e => errorToPayload e

theorem replyStatusOf_ne_empty (o : InvokeOutcome) : replyStatusOf o ≠ "" := by
  cases o <;> simp [replyStatusOf]

theorem Server.receive_dispatch (st : ServerState) (service : Service) (m : InMessage)
    (hname : m.data.interfaceName = st.name)
    (hcmd : st.rpcInterface.contains m.data.command = true) :
    Server.receive st service m =
      { replies := [Server.replyTo st.name m
          (replyStatusOf (service m.data.command
            (Server.buildArgs st.useAccessControl m.source m.origin m.data.command m.data.args)))
          (replyResultOf (service m.data.command
            (Server.buildArgs st.useAccessControl m.source m.origin m.data.command m.data.args)))],
        invoked := some (m.data.command,
          Server.buildArgs st.useAccessControl m.source m.origin m.data.command m.data.args) } := by
  have hmem : m.data.command ∈ st.rpcInterface := by simpa using hcmd
  rw [Server.receive, if_neg (by simp [hname]), if_neg (by simp [hmem])]
  cases h : service m.data.command
      (Server.buildArgs st.useAccessControl m.source m.origin m.data.command m.data.args) <;>
    simp [h, replyStatusOf, replyResultOf]

/-- C3: in the run of RPC.Client where no matching handshake reply ever
arrives, the driver sends handshake messages at 100 ms and then every
1000 ms, and at the 30000 ms timeout it rejects the connect promise with
the Connection timeout error; the pending retry timer is cleared at that
point, so the rejection is the last event of the run and no handshake
message is ever sent after it (every send happens strictly before
30000 ms). -/
theorem c3_connection_timeout :
    connectNoReplyRun
        = ((List.range 30).map (fun k => CEvent.sendHandshake (100 + 1000 * k)))
          ++ [CEvent.rejectConnect 30000 "Connection timeout"]
    ∧ connectNoReplyRun.getLast? = some (CEvent.rejectConnect 30000 "Connection timeout") := by
  constructor
  · rfl
  · rfl

/-- C4: an incoming message whose interfaceName matches the dispatcher but
whose command is not in the whitelist produces exactly one reply, with
status error and the Unknown command message, addressed to the originating
source and origin under the original request id, and the service is never
invoked. -/
theorem c4_unknown_command (st : ServerState) (service : Service) (m : InMessage)
    (hname : m.data.interfaceName = st.name)
    (hcmd : st.rpcInterface.contains m.data.command = false) :
    Server.receive st service m =
      { replies := [{ target := m.source, targetOrigin := m.origin, status := "error",
                      result := WireResult.errObj "Unknown command" "" none,
                      interfaceName := st.name, id := m.data.id }],
        invoked := none } := by
  have hmem : m.data.command ∉ st.rpcInterface := by simpa using hcmd
  rw [Server.receive, if_neg (by simp [hname]), if_pos (by simp [hmem])]
  rw [Server.replyTo, errorToPayload, unknownCommandError]
  simp

theorem c4_witness :
    Server.receive ⟨"calc", ["ping", "getRpcInterface"], false⟩
        (fun _ _ => InvokeOutcome.value JValue.vundef)
        { source := 5, origin := "https://x",
          data := { command := "nope", interfaceName := "calc", args := [], id := 9 } }
      = { replies := [{ target := 5, targetOrigin := "https://x", status := "error",
                        result := WireResult.errObj "Unknown command" "" none,
                        interfaceName := "calc", id := 9 }],
          invoked := none } :=
  c4_unknown_command _ _ _ rfl (by decide)

/-- C5: a client proxy pinned to a non-wildcard target origin silently
discards any message whose origin differs: the receive handler returns with
the state unchanged (so the pending table is untouched even when the id of
the message matches an outstanding call) and performs no action. -/
theorem c5_origin_filter (st : ClientState) (ev : MessageEvent)
    (hpin : st.targetOrigin ≠ "*") (hmis : ev.origin ≠ st.targetOrigin) :
    Client.receive st ev = (st, ClientAction.ignore) := by
  rw [Client.receive, if_pos (Or.inr (Or.inr (Or.inr ⟨hpin, hmis⟩)))]

theorem c5_witness :
    Client.receive
        { targetWindow := 2, targetOrigin := "https://x", interfaceName := "calc",
          waiting := [(7, ⟨1, 2⟩)] }
        { source := 2, origin := "https://evil",
          data := { status := "OK", interfaceName := "calc", id := 7,
                    result := WireResult.value (JValue.vstr "pong") } }
      = ({ targetWindow := 2, targetOrigin := "https://x", interfaceName := "calc",
           waiting := [(7, ⟨1, 2⟩)] }, ClientAction.ignore) :=
  c5_origin_filter _ _ (by decide) (by decide)

/-- C7, counterexample: the source pushes getRpcInterface onto the whitelist
unconditionally, so an explicit whitelist that already carries it ends up
with the name twice, while the claimed resolution (append only if not
already present) keeps it once. -/
theorem c7_counterexample :
    resolveRpcInterface (some ["getRpcInterface"]) []
        = ["getRpcInterface", "getRpcInterface"]
    ∧ resolveRpcInterface (some ["getRpcInterface"]) []
        ≠ resolveRpcInterfaceSpec (some ["getRpcInterface"]) [] := by
  constructor
  · rfl
  · decide

/-- C7, amended: at construction the whitelist is the explicit list when
given, verbatim, otherwise the introspected method names; in both cases the
handshake method name getRpcInterface is then appended unconditionally
(also when it is already present), so it is always in the resolved list. -/
theorem c7_whitelist_resolution (explicit : Option (List String))
    (introspected : List String) :
    resolveRpcInterface explicit introspected
        = explicit.getD introspected ++ ["getRpcInterface"]
    ∧ "getRpcInterface" ∈ resolveRpcInterface explicit introspected := by
  constructor
  · cases explicit <;> rfl
  · cases explicit <;> simp [resolveRpcInterface]

/-- C8: an incoming message whose interfaceName differs from the own name of
the dispatcher produces no reply and no observable effect: the receive
handler returns before the whitelist check, so nothing is invoked. -/
theorem c8_interface_name_mismatch (st : ServerState) (service : Service) (m : InMessage)
    (h : m.data.interfaceName ≠ st.name) :
    Server.receive st service m = { replies := [], invoked := none } := by
  rw [Server.receive, if_pos h]

theorem c8_witness :
    Server.receive ⟨"calc", ["ping", "getRpcInterface"], false⟩
        (fun _ _ => InvokeOutcome.value JValue.vundef)
        { source := 5, origin := "https://x",
          data := { command := "ping", interfaceName := "other", args := [], id := 3 } }
      = { replies := [], invoked := none } :=
  c8_interface_name_mismatch _ _ _ (by decide)

/-- C6: with access control enabled, every dispatched call whose command is
not getRpcInterface is invoked with the identity object carrying the
calling window and calling origin of the incoming message placed before the
request args, and a dispatched getRpcInterface call is invoked with the
request args only. -/
theorem c6_access_control_injection (st : ServerState) (service : Service) (m : InMessage)
    (hac : st.useAccessControl = true)
    (hname : m.data.interfaceName = st.name)
    (hcmd : st.rpcInterface.contains m.data.command = true) :
    (Server.receive st service m).invoked
      = some (m.data.command,
          if m.data.command = "getRpcInterface" then m.data.args.map CallArg.value
          else CallArg.identity m.source m.origin :: m.data.args.map CallArg.value) := by
  rw [Server.receive_dispatch st service m hname hcmd]
  by_cases h : m.data.command = "getRpcInterface"
  · simp [Server.buildArgs, h]
  · simp [Server.buildArgs, h, hac]

theorem c6_witness :
    (Server.receive ⟨"calc", ["ping", "getRpcInterface"], true⟩
        (fun _ _ => InvokeOutcome.value JValue.vundef)
        { source := 5, origin := "https://x",
          data := { command := "ping", interfaceName := "calc",
                    args := [JValue.vnat 1], id := 4 } }).invoked
      = some ("ping", [CallArg.identity 5 "https://x", CallArg.value (JValue.vnat 1)])
    ∧ (Server.receive ⟨"calc", ["ping", "getRpcInterface"], true⟩
        (fun _ _ => InvokeOutcome.value JValue.vundef)
        { source := 5, origin := "https://x",
          data := { command := "getRpcInterface", interfaceName := "calc",
                    args := [], id := 0 } }).invoked
      = some ("getRpcInterface", []) := by
  constructor
  · have h := c6_access_control_injection ⟨"calc", ["ping", "getRpcInterface"], true⟩
      (fun _ _ => InvokeOutcome.value JValue.vundef)
      { source := 5, origin := "https://x",
        data := { command := "ping", interfaceName := "calc",
                  args := [JValue.vnat 1], id := 4 } } rfl rfl (by decide)
    simpa using h
  · have h := c6_access_control_injection ⟨"calc", ["ping", "getRpcInterface"], true⟩
      (fun _ _ => InvokeOutcome.value JValue.vundef)
      { source := 5, origin := "https://x",
        data := { command := "getRpcInterface", interfaceName := "calc",
                  args := [], id := 0 } } rfl rfl (by decide)
    simpa using h

/-- C9: a reply that passes the filter of the proxy and whose id matches a
pending entry, but whose truthy status is neither OK nor error, removes the
entry from the pending table (a second lookup finds nothing) while invoking
neither the resolve nor the error continuation, leaving the promise of the
call unsettled. -/
theorem c9_unhandled_status (st : ClientState) (ev : MessageEvent) (cb : PendingEntry)
    (hpass : ClientPasses st ev)
    (hkeys : (st.waiting.map Prod.fst).Nodup)
    (hget : mapGet st.waiting ev.data.id = some cb)
    (hok : ev.data.status ≠ "OK") (herr : ev.data.status ≠ "error") :
    Client.receive st ev
        = ({ st with waiting := mapDelete st.waiting ev.data.id },
           ClientAction.dropWithoutCallback ev.data.id)
    ∧ mapGet (mapDelete st.waiting ev.data.id) ev.data.id = none := by
  constructor
  · rw [receive_of_passes st ev hpass, hget]
    dsimp only
    unfold settlementOf
    rw [if_neg hok, if_neg herr]
  · exact mapGet_mapDelete_self _ _ hkeys

theorem c9_witness :
    Client.receive
        { targetWindow := 2, targetOrigin := "*", interfaceName := "calc",
          waiting := [(7, ⟨1, 2⟩)] }
        { source := 2, origin := "https://x",
          data := { status := "weird", interfaceName := "calc", id := 7,
                    result := WireResult.value JValue.vundef } }
      = ({ targetWindow := 2, targetOrigin := "*", interfaceName := "calc",
           waiting := [] }, ClientAction.dropWithoutCallback 7)
    ∧ mapGet (mapDelete [(7, ⟨1, 2⟩)] 7) 7 = none :=
  c9_unhandled_status _ _ ⟨1, 2⟩ (by constructor <;> simp) (by decide)
    rfl (by decide) (by decide)

/-- C10: close() on the server dispatcher passes a freshly bound function to
removeEventListener, different from the bound copy registered at
construction, so the registry is unchanged: the handler registered at
construction stays subscribed and every later message is dispatched to
Server._receive exactly as before the close. -/
theorem c10_close_is_ineffective (r : ListenerRegistry) (hwf : RegistryWF r) :
    (serverCloseListeners (serverConstructListeners r).2).listeners
        = (serverConstructListeners r).2.listeners
    ∧ (serverConstructListeners r).1
        ∈ (serverCloseListeners (serverConstructListeners r).2).listeners
    ∧ ∀ (st : ServerState) (service : Service) (m : InMessage),
        serverDispatch (serverCloseListeners (serverConstructListeners r).2) st service m
          = serverDispatch (serverConstructListeners r).2 st service m := by
  have hnm : r.nextFresh + 1 ∉ r.listeners ++ [r.nextFresh] := by
    intro hmem
    rcases List.mem_append.mp hmem with h | h
    · have := hwf _ h
      omega
    · simp at h
  have h1 : (serverCloseListeners (serverConstructListeners r).2).listeners
      = (serverConstructListeners r).2.listeners := by
    simp only [serverCloseListeners, serverConstructListeners, bindReceive,
      addEventListener, removeEventListener]
    exact List.erase_of_not_mem hnm
  refine ⟨h1, ?_, ?_⟩
  · rw [h1]
    simp [serverConstructListeners, bindReceive, addEventListener]
  · intro st service m
    simp [serverDispatch, h1]

theorem c10_witness :
    (serverCloseListeners (serverConstructListeners ⟨[], 0⟩).2).listeners
        = (serverConstructListeners (⟨[], 0⟩ : ListenerRegistry)).2.listeners
    ∧ (serverConstructListeners (⟨[], 0⟩ : ListenerRegistry)).1
        ∈ (serverCloseListeners (serverConstructListeners ⟨[], 0⟩).2).listeners
    ∧ ∀ (st : ServerState) (service : Service) (m : InMessage),
        serverDispatch (serverCloseListeners (serverConstructListeners ⟨[], 0⟩).2) st service m
          = serverDispatch (serverConstructListeners ⟨[], 0⟩).2 st service m :=
  c10_close_is_ineffective ⟨[], 0⟩ (by intro f hf; exact absurd hf (List.not_mem_nil f))

theorem roundTrip_eq (cst : ClientState) (sst : ServerState) (service : Service)
    (serverOrigin clientOrigin : String) (clientWindow : Source)
    (command : String) (args : List JValue) (freshId : Nat) (entry : PendingEntry)
    (hname : sst.name = cst.interfaceName)
    (hwl : sst.rpcInterface.contains command = true)
    (horigin : cst.targetOrigin = "*" ∨ serverOrigin = cst.targetOrigin)
    (hfresh : mapGet cst.waiting freshId = none) :
    roundTrip cst sst service serverOrigin clientOrigin clientWindow command args freshId entry
      = ({ cst with waiting := mapDelete (mapSet cst.waiting freshId entry) freshId },
         settlementOf
           (deliverReply cst.targetWindow serverOrigin
             (Server.replyTo sst.name
               { source := clientWindow, origin := clientOrigin,
                 data := { command := command, interfaceName := cst.interfaceName,
                           args := args, id := freshId } }
               (replyStatusOf (service command (Server.buildArgs sst.useAccessControl
                 clientWindow clientOrigin command args)))
               (replyResultOf (service command (Server.buildArgs sst.useAccessControl
                 clientWindow clientOrigin command args)))))
           entry) := by
  have hget : mapGet (mapSet cst.waiting freshId entry) freshId = some entry := by
    rw [mapSet_of_get_none _ _ _ hfresh]
    exact mapGet_append_right _ _ _ hfresh
  have hpass : ClientPasses
      { cst with waiting := mapSet cst.waiting freshId entry }
      (deliverReply cst.targetWindow serverOrigin
        (Server.replyTo sst.name
          { source := clientWindow, origin := clientOrigin,
            data := { command := command, interfaceName := cst.interfaceName,
                      args := args, id := freshId } }
          (replyStatusOf (service command (Server.buildArgs sst.useAccessControl
            clientWindow clientOrigin command args)))
          (replyResultOf (service command (Server.buildArgs sst.useAccessControl
            clientWindow clientOrigin command args))))) :=
    ⟨rfl, replyStatusOf_ne_empty _, hname, horigin⟩
  rw [roundTrip]
  dsimp only [Client.invoke]
  rw [Server.receive_dispatch sst service
      { source := clientWindow, origin := clientOrigin,
        data := { command := command, interfaceName := cst.interfaceName,
                  args := args, id := freshId } } hname.symm hwl]
  dsimp only
  rw [receive_of_passes _ _ hpass]
  dsimp only [deliverReply, Server.replyTo]
  rw [hget]

/-- C1, counterexample: the round-trip claim as stated fails for an error
with empty message.  A whitelisted method that throws an error whose
message is the empty string makes the dispatcher take the falsy-message
branch and send the raw error as the message field; the client then builds
new Error from that value, so the call is rejected with an error whose
message is the stringification Error of the thrown error, which differs
from the empty message of the original error. -/
theorem c1_counterexample :
    (roundTrip
        { targetWindow := 1, targetOrigin := "*", interfaceName := "calc", waiting := [] }
        ⟨"calc", ["fail", "getRpcInterface"], false⟩
        (fun _ _ => InvokeOutcome.throws { message := "", stack := "s", code := none })
        "https://s" "https://c" 9 "fail" [] 7 ⟨3, 4⟩).2
      = ClientAction.invokeError 4 { message := "Error", stack := "", code := none }
    ∧ "Error" ≠ ("" : String) := by
  constructor
  · rfl
  · decide

/-- C1, amended: a full round trip through a connected client proxy and a
server dispatcher, for a whitelisted command: when the service method
returns a plain value v (directly or through a resolved promise), the
resolve continuation of the pending call registered by the stub is invoked
with v; when the service method throws or its promise rejects with an
error e carrying a truthy (nonempty) message, the error continuation is
invoked with an error whose message (and stack and code) equal those of e;
when the message of e is empty, the falsy-message fallback of the
dispatcher sends the raw error and the error continuation is invoked with
an error whose message is the stringification Error of e, not the empty
original message. -/
theorem c1_round_trip (cst : ClientState) (sst : ServerState) (service : Service)
    (serverOrigin clientOrigin : String) (clientWindow : Source)
    (command : String) (args : List JValue) (freshId : Nat) (entry : PendingEntry)
    (hname : sst.name = cst.interfaceName)
    (hwl : sst.rpcInterface.contains command = true)
    (horigin : cst.targetOrigin = "*" ∨ serverOrigin = cst.targetOrigin)
    (hfresh : mapGet cst.waiting freshId = none) :
    (∀ v, service command (Server.buildArgs sst.useAccessControl clientWindow clientOrigin
            command args) = InvokeOutcome.value v →
        (roundTrip cst sst service serverOrigin clientOrigin clientWindow command args
            freshId entry).2
          = ClientAction.invokeResolve entry.resolveTok (WireResult.value v))
    ∧ (∀ v, service command (Server.buildArgs sst.useAccessControl clientWindow clientOrigin
            command args) = InvokeOutcome.promiseOk v →
        (roundTrip cst sst service serverOrigin clientOrigin clientWindow command args
            freshId entry).2
          = ClientAction.invokeResolve entry.resolveTok (WireResult.value v))
    ∧ (∀ e, e.message ≠ "" → service command (Server.buildArgs sst.useAccessControl
            clientWindow clientOrigin command args) = InvokeOutcome.throws e →
        (roundTrip cst sst service serverOrigin clientOrigin clientWindow command args
            freshId entry).2
          = ClientAction.invokeError entry.errorTok
              { message := e.message, stack := e.stack, code := e.code })
    ∧ (∀ e, e.message ≠ "" → service command (Server.buildArgs sst.useAccessControl
            clientWindow clientOrigin command args) = InvokeOutcome.promiseErr e →
        (roundTrip cst sst service serverOrigin clientOrigin clientWindow command args
            freshId entry).2
          = ClientAction.invokeError entry.errorTok
              { message := e.message, stack := e.stack, code := e.code })
    ∧ (∀ e, e.message = "" → service command (Server.buildArgs sst.useAccessControl
            clientWindow clientOrigin command args) = InvokeOutcome.throws e →
        (roundTrip cst sst service serverOrigin clientOrigin clientWindow command args
            freshId entry).2
          = ClientAction.invokeError entry.errorTok
              { message := "Error", stack := "", code := none })
    ∧ (∀ e, e.message = "" → service command (Server.buildArgs sst.useAccessControl
            clientWindow clientOrigin command args) = InvokeOutcome.promiseErr e →
        (roundTrip cst sst service serverOrigin clientOrigin clientWindow command args
            freshId entry).2
          = ClientAction.invokeError entry.errorTok
              { message := "Error", stack := "", code := none }) := by
  have base := roundTrip_eq cst sst service serverOrigin clientOrigin clientWindow
    command args freshId entry hname hwl horigin hfresh
  refine ⟨?_, ?_, ?_, ?_, ?_, ?_⟩
  · intro v hv
    rw [base, hv]
    simp [settlementOf, deliverReply, Server.replyTo, replyStatusOf, replyResultOf]
  · intro v hv
    rw [base, hv]
    simp [settlementOf, deliverReply, Server.replyTo, replyStatusOf, replyResultOf]
  · intro e hmsg hv
    rw [base, hv]
    simp [settlementOf, deliverReply, Server.replyTo, replyStatusOf, replyResultOf,
      errorToPayload, rebuildError, hmsg]
  · intro e hmsg hv
    rw [base, hv]
    simp [settlementOf, deliverReply, Server.replyTo, replyStatusOf, replyResultOf,
      errorToPayload, rebuildError, hmsg]
  · intro e hmsg hv
    rw [base, hv]
    simp [settlementOf, deliverReply, Server.replyTo, replyStatusOf, replyResultOf,
      errorToPayload, rebuildError, jsErrorToString, hmsg]
  · intro e hmsg hv
    rw [base, hv]
    simp [settlementOf, deliverReply, Server.replyTo, replyStatusOf, replyResultOf,
      errorToPayload, rebuildError, jsErrorToString, hmsg]


theorem c1_witness :
    (roundTrip
        { targetWindow := 1, targetOrigin := "*", interfaceName := "calc", waiting := [] }
        ⟨"calc", ["ping", "fail", "getRpcInterface"], false⟩
        (fun c _ =>
          if c = "ping" then InvokeOutcome.value (JValue.vstr "pong")
          else if c = "fail" then InvokeOutcome.throws ⟨"boom", "s", none⟩
          else InvokeOutcome.value JValue.vundef)
        "https://s" "https://c" 9 "ping" [] 7 ⟨1, 2⟩).2
      = ClientAction.invokeResolve 1 (WireResult.value (JValue.vstr "pong"))
    ∧ (roundTrip
        { targetWindow := 1, targetOrigin := "*", interfaceName := "calc", waiting := [] }
        ⟨"calc", ["ping", "fail", "getRpcInterface"], false⟩
        (fun c _ =>
          if c = "ping" then InvokeOutcome.value (JValue.vstr "pong")
          else if c = "fail" then InvokeOutcome.throws ⟨"boom", "s", none⟩
          else InvokeOutcome.value JValue.vundef)
        "https://s" "https://c" 9 "fail" [] 7 ⟨3, 4⟩).2
      = ClientAction.invokeError 4 { message := "boom", stack := "s", code := none } := by
  constructor
  · exact (c1_round_trip
      { targetWindow := 1, targetOrigin := "*", interfaceName := "calc", waiting := [] }
      ⟨"calc", ["ping", "fail", "getRpcInterface"], false⟩
      (fun c _ =>
        if c = "ping" then InvokeOutcome.value (JValue.vstr "pong")
        else if c = "fail" then InvokeOutcome.throws ⟨"boom", "s", none⟩
        else InvokeOutcome.value JValue.vundef)
      "https://s" "https://c" 9 "ping" [] 7 ⟨1, 2⟩
      rfl (by decide) (Or.inl rfl) rfl).1 (JValue.vstr "pong") (by decide)
  · exact (c1_round_trip
      { targetWindow := 1, targetOrigin := "*", interfaceName := "calc", waiting := [] }
      ⟨"calc", ["ping", "fail", "getRpcInterface"], false⟩
      (fun c _ =>
        if c = "ping" then InvokeOutcome.value (JValue.vstr "pong")
        else if c = "fail" then InvokeOutcome.throws ⟨"boom", "s", none⟩
        else InvokeOutcome.value JValue.vundef)
      "https://s" "https://c" 9 "fail" [] 7 ⟨3, 4⟩
      rfl (by decide) (Or.inl rfl) rfl).2.2.1 ⟨"boom", "s", none⟩ (by decide) (by decide)

/-- The pending entries left after deleting a set of ids: used to state that
processing a batch of replies removes exactly the answered ids. -/
def remainingAfter (w : List (Nat × PendingEntry)) (ids : List Nat) :
    List (Nat × PendingEntry) :=
  w.filter (fun p => !(ids.contains p.1))

theorem processReplies_correlate (evs : List MessageEvent) :
    ∀ st : ClientState,
    (st.waiting.map Prod.fst).Nodup →
    (evs.map fun e => e.data.id).Nodup →
    (∀ ev ∈ evs, ClientPasses st ev ∧ (mapGet st.waiting ev.data.id).isSome = true) →
    (processReplies st evs).2
        = evs.map (fun ev => settlementOf ev ((mapGet st.waiting ev.data.id).getD ⟨0, 0⟩))
    ∧ (processReplies st evs).1
        = { st with waiting := remainingAfter st.waiting (evs.map fun e => e.data.id) } := by
  induction evs with
  | nil =>
    intro st _ _ _
    refine ⟨rfl, ?_⟩
    simp [processReplies, remainingAfter]
  | cons ev rest ih =>
    intro st hkeys hids hall
    obtain ⟨hpass, hsome⟩ := hall ev (List.mem_cons_self _ _)
    obtain ⟨cb, hcb⟩ := Option.isSome_iff_exists.mp hsome
    have hstep : Client.receive st ev
        = ({ st with waiting := mapDelete st.waiting ev.data.id }, settlementOf ev cb) := by
      rw [receive_of_passes st ev hpass, hcb]
    have hnd := List.nodup_cons.mp hids
    have hkeys1 : ((mapDelete st.waiting ev.data.id).map Prod.fst).Nodup :=
      keysNodup_mapDelete _ _ hkeys
    have hne : ∀ e ∈ rest, e.data.id ≠ ev.data.id := by
      intro e he hcontra
      have hmem : e.data.id ∈ rest.map (fun x => x.data.id) :=
        List.mem_map_of_mem _ he
      rw [hcontra] at hmem
      exact hnd.1 hmem
    have hall1 : ∀ e ∈ rest,
        ClientPasses { st with waiting := mapDelete st.waiting ev.data.id } e
          ∧ (mapGet (mapDelete st.waiting ev.data.id) e.data.id).isSome = true := by
      intro e he
      obtain ⟨hp, hs⟩ := hall e (List.mem_cons_of_mem _ he)
      exact ⟨hp, by rw [mapGet_mapDelete_of_ne _ _ _ (hne e he)]; exact hs⟩
    obtain ⟨ihA, ihB⟩ := ih { st with waiting := mapDelete st.waiting ev.data.id }
      hkeys1 hnd.2 hall1
    constructor
    · simp only [processReplies]
      rw [hstep]
      dsimp only
      rw [ihA, List.map_cons, hcb, Option.getD_some]
      congr 1
      apply List.map_congr_left
      intro e he
      rw [mapGet_mapDelete_of_ne _ _ _ (hne e he)]
    · simp only [processReplies]
      rw [hstep]
      dsimp only
      rw [ihB]
      dsimp only
      congr 1
      simp only [remainingAfter]
      rw [mapDelete_eq_filter _ _ hkeys, List.filter_filter]
      apply List.filter_congr
      intro p hp
      simp only [List.map_cons, List.contains_cons, Bool.not_or]
      rw [Bool.and_comm]
      simp [bne]

/-- C2: for a set of pending calls registered under distinct ids on one
proxy, and any arrival order of filter-passing replies with distinct ids
that each match a pending entry, each reply settles exactly the pending
entry whose id equals its own id (with the settlement determined by that
reply alone), and afterwards exactly the entries whose ids were answered
have been removed from the table, each exactly once; a filter-passing reply
whose id matches no pending entry is only logged and changes nothing. -/
theorem c2_reply_correlation (st : ClientState) (evs : List MessageEvent)
    (hkeys : (st.waiting.map Prod.fst).Nodup)
    (hids : (evs.map fun e => e.data.id).Nodup)
    (hall : ∀ ev ∈ evs, ClientPasses st ev ∧ (mapGet st.waiting ev.data.id).isSome = true) :
    ((processReplies st evs).2
        = evs.map (fun ev => settlementOf ev ((mapGet st.waiting ev.data.id).getD ⟨0, 0⟩))
      ∧ (processReplies st evs).1
        = { st with waiting := remainingAfter st.waiting (evs.map fun e => e.data.id) })
    ∧ ∀ ev, ClientPasses st ev → mapGet st.waiting ev.data.id = none →
        Client.receive st ev = (st, ClientAction.logUnknownReply ev.data.id) := by
  refine ⟨processReplies_correlate evs st hkeys hids hall, ?_⟩
  intro ev hp hnone
  rw [receive_of_passes st ev hp, hnone]

theorem c2_witness :
    ((processReplies
        { targetWindow := 2, targetOrigin := "*", interfaceName := "calc",
          waiting := [(1, ⟨10, 11⟩), (2, ⟨20, 21⟩)] }
        [{ source := 2, origin := "https://s",
           data := { status := "OK", interfaceName := "calc", id := 2,
                     result := WireResult.value (JValue.vstr "b") } },
         { source := 2, origin := "https://s",
           data := { status := "error", interfaceName := "calc", id := 1,
                     result := WireResult.errObj "bad" "s" none } }]).2
        = [ClientAction.invokeResolve 20 (WireResult.value (JValue.vstr "b")),
           ClientAction.invokeError 11 { message := "bad", stack := "s", code := none }]
      ∧ (processReplies
        { targetWindow := 2, targetOrigin := "*", interfaceName := "calc",
          waiting := [(1, ⟨10, 11⟩), (2, ⟨20, 21⟩)] }
        [{ source := 2, origin := "https://s",
           data := { status := "OK", interfaceName := "calc", id := 2,
                     result := WireResult.value (JValue.vstr "b") } },
         { source := 2, origin := "https://s",
           data := { status := "error", interfaceName := "calc", id := 1,
                     result := WireResult.errObj "bad" "s" none } }]).1
        = { targetWindow := 2, targetOrigin := "*", interfaceName := "calc", waiting := [] })
    ∧ Client.receive
        { targetWindow := 2, targetOrigin := "*", interfaceName := "calc",
          waiting := [(1, ⟨10, 11⟩), (2, ⟨20, 21⟩)] }
        { source := 2, origin := "https://s",
          data := { status := "OK", interfaceName := "calc", id := 5,
                    result := WireResult.value JValue.vundef } }
      = ({ targetWindow := 2, targetOrigin := "*", interfaceName := "calc",
           waiting := [(1, ⟨10, 11⟩), (2, ⟨20, 21⟩)] },
         ClientAction.logUnknownReply 5) := by
  have h := c2_reply_correlation
    { targetWindow := 2, targetOrigin := "*", interfaceName := "calc",
      waiting := [(1, ⟨10, 11⟩), (2, ⟨20, 21⟩)] }
    [{ source := 2, origin := "https://s",
       data := { status := "OK", interfaceName := "calc", id := 2,
                 result := WireResult.value (JValue.vstr "b") } },
     { source := 2, origin := "https://s",
       data := { status := "error", interfaceName := "calc", id := 1,
                 result := WireResult.errObj "bad" "s" none } }]
    (by decide) (by decide) (by decide)
  refine ⟨⟨h.1.1.trans (by decide), h.1.2.trans (by decide)⟩, ?_⟩
  exact h.2
    { source := 2, origin := "https://s",
      data := { status := "OK", interfaceName := "calc", id := 5,
                result := WireResult.value JValue.vundef } }
    (by decide) (by decide)
